import Mathlib

/-!
Verification of the `alpha-zero-general` training entry point and evaluator
network against its specification.

The development shallowly embeds the two source files:

* `main.py` — command-line configuration surface (`main`, lines 78-117) and
  the `run` start-up sequence (lines 15-52).  Parsed arguments become the
  structure `ParsedArgs` (one field per uncommented `add_argument`, with the
  parser's default values), the post-parsing derivations of lines 107-112
  become `postprocess`, and the observable effect sequence of `run` becomes
  the event trace `runTrace`.
* `splendor/SplendorNNet.py` — the network constructor and forward pass.
  Construction-time state relevant to dispatch becomes `SplendorNNet`
  (field `version`, set unconditionally to `2` on line 57); the branch taken
  by `forward` (lines 108 and 130) becomes `SplendorNNet.forwardBranch`; the
  attribute sets assigned by `__init__` and read by the version-1 branch are
  recorded as string lists.  The shape behaviour of `DenseAndPartialGPool`
  (lines 6-26) is embedded at the level of last-dimension lengths, and the
  final policy/value computation (lines 144-146) is embedded over the reals:
  masking with `-1e8`, `F.log_softmax(pi, dim=1)` applied along the channel
  dimension of the `(N, 1, action_size)` tensor of the version-2 branch,
  and `tanh`.

Python `int` fields are modelled as `ℤ`, Python floats as `ℚ` (for the
configuration arithmetic) or `ℝ` (for the network outputs), and Python
`int(...)` truncation toward zero as `pythonInt`.
-/

/-- Python `int(q)` on a real-valued quantity: truncation toward zero. -/
def pythonInt (q : ℚ) : ℤ :=
  if q < 0 then Int.ceil q else Int.floor q

/-- The command-line arguments of `main.py` (lines 78-104), one field per
uncommented `add_argument`, with the parser's default values.  Note that
`--maxlenOfQueue` (line 83) is commented out in the source and therefore has
no field here.  Python floats are modelled as `ℚ`. -/
structure ParsedArgs where
  numIters : ℤ := 50
  timeIters : ℚ := 0
  numEps : ℤ := 500
  tempThreshold : ℤ := 10
  updateThreshold : ℚ := 3/5
  numMCTSSims : ℤ := 1600
  ratio_fullMCTS : ℤ := 5
  prob_fullMCTS : ℚ := 1/4
  cpuct : ℚ := 1
  dirichletAlpha : ℚ := 1/5
  numItersHistory : ℤ := 5
  learn_rate : ℚ := 3/10000
  epochs : ℤ := 2
  batch_size : ℤ := 32
  nn_version : ℤ := 398
  vl_weight : ℚ := 10
  forced_playouts : Bool := false
  save_optim_state : Bool := false
  cyclic_lr : Bool := false
  surprise_weight : Bool := false
  checkpoint : String := "./temp/"
  load_folder_file : Option String := none
  profile : Bool := false

/-- The long-option names accepted by the argument parser of `main.py`
(lines 78-104), in source order.  The commented-out `--maxlenOfQueue`
(line 83) is absent. -/
def parserFlags : List String :=
  ["--numIters", "--timeIters", "--numEps", "--tempThreshold",
   "--updateThreshold", "--numMCTSSims", "--ratio-fullMCTS", "--prob-fullMCTS",
   "--cpuct", "--dirichletAlpha", "--numItersHistory", "--learn-rate",
   "--epochs", "--batch-size", "--nn-version", "--vl-weight",
   "--forced-playouts", "--save-optim-state", "--cyclic-lr",
   "--surprise-weight", "--checkpoint", "--load-folder-file", "--profile"]

/-- `main.py` line 108: `int(2.5e6/(1.2*args.numItersHistory))`. -/
def maxlenFormula (h : ℤ) : ℤ :=
  pythonInt (2500000 / ((6/5 : ℚ) * (h : ℚ)))

/-- The configuration after the post-parsing assignments of `main.py`
lines 107-112: the parsed fields plus the three derived ones. -/
structure Config extends ParsedArgs where
  arenaCompare : ℤ
  maxlenOfQueue : ℤ
  load_model : Bool

/-- `main.py` lines 106-112: derive `arenaCompare` (line 107),
`maxlenOfQueue` (line 108), the `numIters` override under a positive
`timeIters` (lines 109-110) and `load_model` (line 112) from the parsed
arguments. -/
def postprocess (a : ParsedArgs) : Config :=
  { toParsedArgs :=
      { a with numIters := if 0 < a.timeIters then 1000 else a.numIters }
    arenaCompare := if a.numEps < 500 then 30 else 50
    maxlenOfQueue := maxlenFormula a.numItersHistory
    load_model := a.load_folder_file.isSome }

/-- The externally observable steps of `run` in `main.py` (lines 15-52), in
program order. -/
inductive RunEvent where
  | initGame
  | initNNet
  | loadCheckpoint
  | initCoach
  | loadTrainExamples
  | mkdirCheckpoint
  | copySources
  | echoArgs
  | learn
deriving DecidableEq

/-- The trace of `run(args)` in `main.py` lines 15-52: game and network
construction, then `nnet.load_checkpoint` guarded by `load_model`
(lines 34-36), `Coach` construction (line 41), `c.loadTrainExamples()`
guarded by `load_model` (lines 43-45), the three subprocess calls
(lines 47-49), and finally `c.learn()` (line 52). -/
def runTrace (c : Config) : List RunEvent :=
  [RunEvent.initGame, RunEvent.initNNet]
    ++ (if c.load_model then [RunEvent.loadCheckpoint] else [])
    ++ [RunEvent.initCoach]
    ++ (if c.load_model then [RunEvent.loadTrainExamples] else [])
    ++ [RunEvent.mkdirCheckpoint, RunEvent.copySources, RunEvent.echoArgs,
        RunEvent.learn]

/-- Construction-time state of `SplendorNNet.__init__`
(`splendor/SplendorNNet.py` lines 52-105) relevant to forward dispatch:
only the `version` field, which line 57 sets unconditionally to `2`. -/
structure SplendorNNet where
  version : ℤ

/-- `SplendorNNet.__init__` as a function of the `nn_version` entry of the
arguments dictionary: line 57 assigns `self.version = 2` without reading
`nn_version`. -/
def SplendorNNet.construct (nn_version : ℤ) : SplendorNNet :=
  { version := 2 }

/-- The architecture branch `forward` executes
(`splendor/SplendorNNet.py` lines 108 and 130): the branch is a pure
function of `self.version`; `0` stands for falling off the end of the
method (no branch taken). -/
def SplendorNNet.forwardBranch (net : SplendorNNet) : ℤ :=
  if net.version = 1 then 1 else if net.version = 2 then 2 else 0

/-- The attributes assigned on `self` by `SplendorNNet.__init__`
(`splendor/SplendorNNet.py` lines 54-105). -/
def SplendorNNet.initAssignedAttrs : List String :=
  ["nb_vect", "vect_dim", "action_size", "args", "version",
   "dense2d_1", "partialgpool_1", "dense2d_2", "partialgpool_2", "dense2d_3",
   "flatten_and_gpool", "dense1d_4", "partialgpool_4", "dense1d_5",
   "partialgpool_5", "output_layers_PI", "output_layers_V"]

/-- The attributes of `self` read by the version-1 branch of `forward`
(`splendor/SplendorNNet.py` lines 108-128). -/
def SplendorNNet.version1BranchAttrs : List String :=
  ["linear2D", "maxpool", "avgpool", "linear1D", "batch_norms",
   "output_layer_V", "output_layer_PI"]

/-- Output length of `nn.MaxPool1d(kernel)` / `nn.AvgPool1d(kernel)` on a
last dimension of length `len` (stride defaults to the kernel size):
`(len - kernel) / kernel + 1`. -/
def pool1dLen (kernel len : ℕ) : ℕ :=
  (len - kernel) / kernel + 1

/-- Output length of `nn.Linear(inFeatures, outFeatures)` on a last
dimension of length `len`: defined only when `len = inFeatures`. -/
def linearLen (inFeatures outFeatures len : ℕ) : Option ℕ :=
  if len = inFeatures then some outFeatures else none

/-- Constructor state of `DenseAndPartialGPool`
(`splendor/SplendorNNet.py` lines 6-16). -/
structure DenseAndPartialGPool where
  input_length : ℕ
  output_length : ℕ
  nb_groups : ℕ
  nb_items_in_groups : ℕ

/-- Line 11: `input_length - nb_groups*nb_items_in_groups`. -/
def DenseAndPartialGPool.dense_input (m : DenseAndPartialGPool) : ℕ :=
  m.input_length - m.nb_groups * m.nb_items_in_groups

/-- Line 12: `output_length - 2*nb_groups`. -/
def DenseAndPartialGPool.dense_output (m : DenseAndPartialGPool) : ℕ :=
  m.output_length - 2 * m.nb_groups

/-- Last-dimension length of `DenseAndPartialGPool.forward`
(`splendor/SplendorNNet.py` lines 18-26) on an input of last-dimension
length `lastLen`.  Line 19 splits the last dimension into `nb_groups`
pieces of `nb_items_in_groups` plus one piece of `dense_input` (defined
only when these sizes sum to `lastLen`); lines 20-21 max- and avg-pool each
group with kernel `nb_items_in_groups`; line 23 applies the
`dense_input → dense_output` linear layer to the remaining piece; line 25
concatenates everything along the last dimension. -/
def DenseAndPartialGPool.forwardLen (m : DenseAndPartialGPool) (lastLen : ℕ) :
    Option ℕ :=
  if (List.replicate m.nb_groups m.nb_items_in_groups ++ [m.dense_input]).sum
      = lastLen then
    match linearLen m.dense_input m.dense_output m.dense_input with
    | some denseLen =>
        some ((List.replicate m.nb_groups
                (pool1dLen m.nb_items_in_groups m.nb_items_in_groups)).sum
          + (List.replicate m.nb_groups
                (pool1dLen m.nb_items_in_groups m.nb_items_in_groups)).sum
          + denseLen)
    | none => none
  else none

/-- `splendor/SplendorNNet.py` line 145, one batch row: `torch.where` keeps
the logit of a valid action and replaces the logit of an invalid action by
`-1e8`. -/
noncomputable def maskedLogits {n : ℕ} (valid : Fin n → Bool)
    (logits : Fin n → ℝ) : Fin n → ℝ :=
  fun i => if valid i then logits i else -100000000

/-- `F.log_softmax(z, dim=1)` on one batch element of a 3-D `(N, C, L)`
tensor, indexed as channel `c` and last-dimension position `i`: the
normalization runs along the CHANNEL index, separately for each `i`:
`log_softmax(z)_{c,i} = z_{c,i} - log (Σ_{c'} exp z_{c',i})`. -/
noncomputable def logSoftmaxDim1 {C n : ℕ} (z : Fin C → Fin n → ℝ) :
    Fin C → Fin n → ℝ :=
  fun c i => z c i - Real.log (∑ c', Real.exp (z c' i))

/-- The log-policy row the version-2 forward pass returns for one batch
element (`splendor/SplendorNNet.py` lines 145-146).  In the version-2
branch `x` has shape `(N, 1, 256)` after `FlattenAndPartialGPool`
(line 48's `unsqueeze(1)`; the `BatchNorm1d(1)` layers of `dense1d_4` and
`dense1d_5` require the singleton channel dimension), so the masked logits
`pi` of line 145 have shape `(N, 1, action_size)`; line 146 applies
`F.log_softmax(pi, dim=1)` along that singleton channel dimension and then
squeezes it away. -/
noncomputable def forwardPolicyV2 {n : ℕ} (valid : Fin n → Bool)
    (logits : Fin n → ℝ) : Fin n → ℝ :=
  fun i =>
    logSoftmaxDim1 (fun _ : Fin 1 => maskedLogits valid logits) 0 i

/-- The value head of the forward pass (`splendor/SplendorNNet.py`
line 146): `torch.tanh` applied to the raw output of `output_layers_V`. -/
noncomputable def forwardValue (raw : ℝ) : ℝ :=
  Real.tanh raw

/-- C1, counterexample: with `numEps = 100 < 500` the parsed configuration
gets `arenaCompare = 30`, with `numEps = 500` it gets `arenaCompare = 50`,
so the value assigned when `numEps < 500` is NOT greater than the value
assigned when `numEps >= 500`. -/
theorem C1_counterexample :
    (postprocess { numEps := 100 }).arenaCompare = 30 ∧
    (postprocess { numEps := 500 }).arenaCompare = 50 ∧
    ¬ (postprocess { numEps := 500 }).arenaCompare
        < (postprocess { numEps := 100 }).arenaCompare := by
  refine ⟨by decide, by decide, by decide⟩

/-- C1, amended: for every pair of parsed configurations, the
`arenaCompare` value assigned when `numEps < 500` (namely `30`) is LESS
than the `arenaCompare` value assigned when `numEps >= 500` (namely `50`):
`main.py` line 107 plays fewer arena games when `numEps` is small. -/
theorem C1_arena_fewer_games_when_numEps_small (a b : ParsedArgs)
    (ha : a.numEps < 500) (hb : 500 ≤ b.numEps) :
    (postprocess a).arenaCompare < (postprocess b).arenaCompare := by
  have h1 : (postprocess a).arenaCompare = 30 := by
    simp [postprocess, ha]
  have h2 : (postprocess b).arenaCompare = 50 := by
    simp [postprocess, not_lt.mpr hb]
  omega

/-- C1, witness: the amended statement at `numEps = 100` versus
`numEps = 600`. -/
theorem C1_witness :
    ({ numEps := 100 } : ParsedArgs).numEps < 500 ∧
    500 ≤ ({ numEps := 600 } : ParsedArgs).numEps ∧
    (postprocess { numEps := 100 }).arenaCompare
      < (postprocess { numEps := 600 }).arenaCompare :=
  ⟨by decide, by decide,
   C1_arena_fewer_games_when_numEps_small _ _ (by decide) (by decide)⟩

/-- C4: for every parsed configuration with `timeIters > 0`, the
post-parsing step of `main.py` lines 109-110 sets the effective `numIters`
to `1000`, whatever `--numIters` value was parsed. -/
theorem C4_timeIters_overrides_numIters (a : ParsedArgs)
    (h : 0 < a.timeIters) :
    (postprocess a).numIters = 1000 := by
  simp [postprocess, h]

/-- C4, witness: a configuration with `timeIters = 1` and `numIters = 7`
ends up with `numIters = 1000`. -/
theorem C4_witness :
    0 < ({ timeIters := 1, numIters := 7 } : ParsedArgs).timeIters ∧
    (postprocess { timeIters := 1, numIters := 7 }).numIters = 1000 :=
  ⟨by norm_num, C4_timeIters_overrides_numIters _ (by norm_num)⟩

/-- C5: `load_model` is exactly `load_folder_file.isSome` (`main.py`
line 112); when a `load_folder_file` is provided, the `run` trace loads
both the evaluator checkpoint and the serialized training examples before
the final `learn` step (lines 34-36 and 43-45 precede line 52); when it is
absent, neither load event occurs. -/
theorem C5_resume_loads_both (a : ParsedArgs) :
    (postprocess a).load_model = a.load_folder_file.isSome ∧
    (a.load_folder_file.isSome = true →
      ∃ pre, runTrace (postprocess a) = pre ++ [RunEvent.learn] ∧
        RunEvent.loadCheckpoint ∈ pre ∧ RunEvent.loadTrainExamples ∈ pre) ∧
    (a.load_folder_file = none →
      RunEvent.loadCheckpoint ∉ runTrace (postprocess a) ∧
      RunEvent.loadTrainExamples ∉ runTrace (postprocess a)) := by
  refine ⟨rfl, ?_, ?_⟩
  · intro h
    refine ⟨[RunEvent.initGame, RunEvent.initNNet, RunEvent.loadCheckpoint,
      RunEvent.initCoach, RunEvent.loadTrainExamples,
      RunEvent.mkdirCheckpoint, RunEvent.copySources, RunEvent.echoArgs],
      ?_, by simp, by simp⟩
    simp [runTrace, postprocess, h]
  · intro h
    constructor <;> simp [runTrace, postprocess, h]

/-- C5, witness: with `load_folder_file` provided both load events occur
before `learn`; with the default configuration (no `load_folder_file`)
neither occurs. -/
theorem C5_witness :
    (∃ pre, runTrace (postprocess { load_folder_file := some "./temp/best" })
        = pre ++ [RunEvent.learn] ∧
      RunEvent.loadCheckpoint ∈ pre ∧ RunEvent.loadTrainExamples ∈ pre) ∧
    (RunEvent.loadCheckpoint ∉ runTrace (postprocess {}) ∧
     RunEvent.loadTrainExamples ∉ runTrace (postprocess {})) :=
  ⟨(C5_resume_loads_both { load_folder_file := some "./temp/best" }).2.1 rfl,
   (C5_resume_loads_both {}).2.2 rfl⟩

/-- C6: the forward-pass architecture variant is selected at construction
time: `SplendorNNet.__init__` assigns `self.version = 2` (its only
assignment to `version`, line 57) for every `nn_version` argument, and the
branch `forward` executes is the pure function `forwardBranch` of that
construction-time field, hence identical on every call — always the
version-2 branch. -/
theorem C6_version_fixed_at_construction (nn_version : ℤ) :
    (SplendorNNet.construct nn_version).version = 2 ∧
    (SplendorNNet.construct nn_version).forwardBranch = 2 :=
  ⟨rfl, rfl⟩

/-- C7, counterexample: the memory ceiling is not settable by the caller —
the parser of `main.py` has no `--maxlenOfQueue` option (line 83 is
commented out), and the post-parsing step overwrites `maxlenOfQueue` with
the value derived from `numItersHistory` (shown here on the default
configuration). -/
theorem C7_counterexample :
    "--maxlenOfQueue" ∉ parserFlags ∧
    (postprocess {}).maxlenOfQueue = maxlenFormula 5 :=
  ⟨by decide, rfl⟩

/-- C7, amended: every tunable of the configuration surface EXCEPT the
memory ceiling is exposed by the command-line parser — iteration count,
episodes per iteration, full MCTS budget with its fast-budget ratio and
full-search probability, exploration constant, Dirichlet noise magnitude,
temperature threshold, acceptance threshold, corpus retention window,
forced-playouts toggle, and wall-clock iteration budget; `maxlenOfQueue`
has no flag and is instead always derived from `numItersHistory` by
`main.py` line 108. -/
theorem C7_config_surface_except_maxlen :
    "--numIters" ∈ parserFlags ∧ "--numEps" ∈ parserFlags ∧
    "--numMCTSSims" ∈ parserFlags ∧ "--ratio-fullMCTS" ∈ parserFlags ∧
    "--prob-fullMCTS" ∈ parserFlags ∧ "--cpuct" ∈ parserFlags ∧
    "--dirichletAlpha" ∈ parserFlags ∧ "--tempThreshold" ∈ parserFlags ∧
    "--updateThreshold" ∈ parserFlags ∧ "--numItersHistory" ∈ parserFlags ∧
    "--forced-playouts" ∈ parserFlags ∧ "--timeIters" ∈ parserFlags ∧
    "--maxlenOfQueue" ∉ parserFlags ∧
    ∀ a : ParsedArgs,
      (postprocess a).maxlenOfQueue = maxlenFormula a.numItersHistory := by
  refine ⟨by decide, by decide, by decide, by decide, by decide, by decide,
    by decide, by decide, by decide, by decide, by decide, by decide,
    by decide, fun a => rfl⟩

/-- C8: every constructed `SplendorNNet` has `version = 2` whatever
`nn_version` was configured, so `forward` never takes the version-1 branch;
moreover no attribute the version-1 branch reads is ever assigned by
`__init__`, so that branch's dangling references are unreachable. -/
theorem C8_version1_branch_unreachable (nn_version : ℤ) :
    (SplendorNNet.construct nn_version).version = 2 ∧
    (SplendorNNet.construct nn_version).forwardBranch ≠ 1 ∧
    (SplendorNNet.version1BranchAttrs.all
      (fun a => !SplendorNNet.initAssignedAttrs.contains a)) = true :=
  ⟨rfl, by simp [SplendorNNet.construct, SplendorNNet.forwardBranch],
   by decide⟩

/-- C9: `DenseAndPartialGPool` preserves its declared output width: on an
input whose last dimension is `input_length`, with
`input_length ≥ nb_groups * nb_items_in_groups` and
`output_length ≥ 2 * nb_groups`, `forward` returns last-dimension width
`nb_groups` (max-pooled) plus `nb_groups` (average-pooled) plus
`output_length - 2 * nb_groups` (dense), which is `output_length`. -/
theorem C9_dpgpool_output_width (m : DenseAndPartialGPool)
    (hin : m.nb_groups * m.nb_items_in_groups ≤ m.input_length)
    (hout : 2 * m.nb_groups ≤ m.output_length) :
    m.forwardLen m.input_length
      = some (m.nb_groups + m.nb_groups + (m.output_length - 2 * m.nb_groups))
    ∧ m.forwardLen m.input_length = some m.output_length := by
  have hsum : (List.replicate m.nb_groups m.nb_items_in_groups
      ++ [m.dense_input]).sum = m.input_length := by
    simp [List.sum_replicate, smul_eq_mul, DenseAndPartialGPool.dense_input]
    omega
  have hpool : pool1dLen m.nb_items_in_groups m.nb_items_in_groups = 1 := by
    simp [pool1dLen]
  have hfl : m.forwardLen m.input_length
      = some (m.nb_groups + m.nb_groups
          + (m.output_length - 2 * m.nb_groups)) := by
    simp [DenseAndPartialGPool.forwardLen, hsum, linearLen, hpool,
      List.sum_replicate, smul_eq_mul, DenseAndPartialGPool.dense_output]
  refine ⟨hfl, ?_⟩
  rw [hfl]
  congr 1
  omega

/-- C9, witness: the module instantiated by `SplendorNNet.__init__`
(line 69), `DenseAndPartialGPool(128, 128, nb_groups=8,
nb_items_in_groups=8)`, maps a last dimension of `128` to `128`. -/
theorem C9_witness :
    DenseAndPartialGPool.forwardLen ⟨128, 128, 8, 8⟩ 128 = some 128 :=
  (C9_dpgpool_output_width ⟨128, 128, 8, 8⟩ (by decide) (by decide)).2

/-- C10, counterexample: the derived `maxlenOfQueue` is NOT strictly
decreasing in `numItersHistory`: at `numItersHistory = 2000` and `2001`
the formula `int(2.5e6/(1.2*numItersHistory))` gives `1041` both times. -/
theorem C10_counterexample :
    maxlenFormula 2000 = 1041 ∧ maxlenFormula 2001 = 1041 ∧
    ¬ maxlenFormula 2001 < maxlenFormula 2000 := by
  have e1 : maxlenFormula 2000 = 1041 := by
    rw [maxlenFormula, pythonInt, if_neg (by norm_num), Int.floor_eq_iff]
    norm_num
  have e2 : maxlenFormula 2001 = 1041 := by
    rw [maxlenFormula, pythonInt, if_neg (by norm_num), Int.floor_eq_iff]
    norm_num
  exact ⟨e1, e2, by rw [e1, e2]; exact lt_irrefl _⟩

/-- C10, amended: `maxlenOfQueue` is derived, not caller-settable: after
parsing it always equals `int(2.5e6/(1.2*numItersHistory))` (`416666` for
the default `numItersHistory = 5`), a value NON-INCREASING (not strictly
decreasing) as a positive `numItersHistory` grows, and no command-line
flag overrides it (`--maxlenOfQueue` is commented out). -/
theorem C10_maxlen_derived_not_settable :
    (∀ a : ParsedArgs,
      (postprocess a).maxlenOfQueue = maxlenFormula a.numItersHistory) ∧
    maxlenFormula 5 = 416666 ∧
    (∀ h h' : ℤ, 0 < h → h ≤ h' → maxlenFormula h' ≤ maxlenFormula h) ∧
    "--maxlenOfQueue" ∉ parserFlags := by
  have e5 : maxlenFormula 5 = 416666 := by
    rw [maxlenFormula, pythonInt, if_neg (by norm_num), Int.floor_eq_iff]
    norm_num
  refine ⟨fun a => rfl, e5, ?_, by decide⟩
  intro h h' h0 hle
  have h0q : (0 : ℚ) < (h : ℚ) := by exact_mod_cast h0
  have h0q' : (0 : ℚ) < (h' : ℚ) := by
    calc (0 : ℚ) < (h : ℚ) := h0q
    _ ≤ (h' : ℚ) := by exact_mod_cast hle
  have hb : (0 : ℚ) < (6/5 : ℚ) * (h : ℚ) := by positivity
  have hb' : (0 : ℚ) < (6/5 : ℚ) * (h' : ℚ) := by positivity
  have hq : (2500000 : ℚ) / ((6/5 : ℚ) * (h' : ℚ))
      ≤ (2500000 : ℚ) / ((6/5 : ℚ) * (h : ℚ)) := by
    refine div_le_div_of_nonneg_left (by norm_num) hb ?_
    have : (h : ℚ) ≤ (h' : ℚ) := by exact_mod_cast hle
    nlinarith
  have hq0 : ¬ ((2500000 : ℚ) / ((6/5 : ℚ) * (h : ℚ)) < 0) :=
    not_lt.mpr (le_of_lt (by positivity))
  have hq0' : ¬ ((2500000 : ℚ) / ((6/5 : ℚ) * (h' : ℚ)) < 0) :=
    not_lt.mpr (le_of_lt (by positivity))
  unfold maxlenFormula pythonInt
  rw [if_neg hq0', if_neg hq0]
  exact Int.floor_mono hq

/-- C10, witness: the non-increase at `numItersHistory` growing from
`2000` to `2001`. -/
theorem C10_witness :
    (0 : ℤ) < 2000 ∧ (2000 : ℤ) ≤ 2001 ∧
    maxlenFormula 2001 ≤ maxlenFormula 2000 :=
  ⟨by decide, by decide,
   C10_maxlen_derived_not_settable.2.2.1 2000 2001 (by decide) (by decide)⟩

/-- C2: the version-2 forward pass does NOT produce a normalized policy
over actions.  The masking of line 145 replaces illegal logits by `-1e8`,
but line 146's `F.log_softmax(pi, dim=1)` normalizes along the SINGLETON
channel dimension of the `(N, 1, action_size)` tensor, not the action
dimension, so the returned log-policy row is identically zero: every
action — legal or illegal — gets exponentiated probability `1`, and the
row sums to `action_size`, not `1`.  The `dim=1` works only for the
unreachable version-1 branch, where `x` is 2-D and dimension 1 is the
action axis; the spec's requirement (sum `1 ± ε`, zero mass on illegal
actions) is the evident intent of the masking, so this is a defect of the
code, exhibited here on every input row. -/
theorem C2_log_softmax_dim1_degenerate {n : ℕ} (valid : Fin n → Bool)
    (logits : Fin n → ℝ) :
    (∀ i, forwardPolicyV2 valid logits i = 0) ∧
    (∀ i, Real.exp (forwardPolicyV2 valid logits i) = 1) ∧
    (∑ i, Real.exp (forwardPolicyV2 valid logits i)) = n := by
  have h0 : ∀ i, forwardPolicyV2 valid logits i = 0 := by
    intro i
    simp only [forwardPolicyV2, logSoftmaxDim1]
    rw [Fin.sum_univ_one, Real.log_exp, sub_self]
  have h1 : ∀ i, Real.exp (forwardPolicyV2 valid logits i) = 1 := by
    intro i
    rw [h0 i, Real.exp_zero]
  refine ⟨h0, h1, ?_⟩
  calc (∑ i, Real.exp (forwardPolicyV2 valid logits i))
      = ∑ _i : Fin n, (1 : ℝ) := Finset.sum_congr rfl (fun i _ => h1 i)
    _ = n := by simp

/-- C3: the value head's output is passed through `tanh`
(`splendor/SplendorNNet.py` line 146), so the returned value lies in
`[-1, 1]` — the range the specification requires of value targets. -/
theorem C3_value_in_unit_interval (raw : ℝ) :
    -1 ≤ forwardValue raw ∧ forwardValue raw ≤ 1 := by
  have hc : 0 < Real.cosh raw := Real.cosh_pos raw
  have hs : |Real.sinh raw| ≤ Real.cosh raw := by
    rw [Real.sinh_eq, Real.cosh_eq, abs_le]
    constructor <;> linarith [Real.exp_pos raw, Real.exp_pos (-raw)]
  have habs : |forwardValue raw| ≤ 1 := by
    simp only [forwardValue]
    rw [Real.tanh_eq_sinh_div_cosh, abs_div, abs_of_pos hc, div_le_one hc]
    exact hs
  exact abs_le.mp habs
